import Mathlib

/-!
Verification of the recipe normalization, scaling and relevance-ranking
pipeline of florence-mcp-servers.

The development shallowly embeds the Python sources:
  * `src/shared/types/recipe.py` (Ingredient, NutritionInfo, Recipe,
    to_dict / from_dict / scale_recipe),
  * `src/servers/recipe_api_server/src/tools/search_recipes.py`
    (`_sort_by_relevance`),
  * `src/servers/recipe_api_server/src/services/spoonacular.py`
    (`_format_recipes`, `_format_single_recipe`, `_extract_ingredients`,
    `_extract_nutrition`, `_extract_nutrition_info`).

Conventions of the embedding:
  * Python floats are modelled as rationals (the pipeline only multiplies,
    divides and copies them; the claims are about the exact arithmetic the
    source writes down).
  * Python dict access `d.get(k, default)` is modelled by `Option.getD` on a
    structure whose fields are `Option`-typed; `d[k]` on a missing key is a
    `KeyError`.
  * Functions that can raise return `Except PyErr`.
  * `datetime` values are modelled as `Nat` (microseconds of the instant);
    `isoformat` renders the number in decimal and `fromisoformat` parses it
    back, mirroring that Python's `datetime.isoformat` /
    `datetime.fromisoformat` are mutually inverse at the serialized
    precision, and that `fromisoformat` raises `ValueError` on text it
    cannot parse.
  * Object identity (needed for the deep-copy claims about `scale_recipe`)
    is modelled by a `Store` of heap cells addressed by `Nat`, with an
    address-carrying `RecipeRef` mirror of `Recipe`.
-/

/-- Python exceptions raised by the embedded code. `valueError` carries the
message; the spec's `InvalidScaleError` / `InvalidTimestampError` are the
`ValueError`s raised by `scale_recipe` / `datetime.fromisoformat`, and the
spec's `MissingFieldError` is the `KeyError` of a required dict access. -/
inductive PyErr where
  | keyError (key : String)
  | valueError (msg : String)
  | indexError
deriving DecidableEq

instance {e a : Type} [DecidableEq e] [DecidableEq a] : DecidableEq (Except e a) := fun x y =>
  match x, y with
  | .error e1, .error e2 =>
    if h : e1 = e2 then .isTrue (by rw [h]) else .isFalse (fun hh => h (by cases hh; rfl))
  | .error _, .ok _ => .isFalse (fun hh => by cases hh)
  | .ok _, .error _ => .isFalse (fun hh => by cases hh)
  | .ok a1, .ok a2 =>
    if h : a1 = a2 then .isTrue (by rw [h]) else .isFalse (fun hh => h (by cases hh; rfl))

/-- Lowercase an ASCII letter, as `str.lower()` does (the pipeline's field
names and the claims' inputs are ASCII). -/
def lowerChar (c : Char) : Char :=
  if 65 ≤ c.toNat ∧ c.toNat ≤ 90 then Char.ofNat (c.toNat + 32) else c

/-- Embedding of Python `s.lower()`. -/
def pyLower (s : String) : String := ⟨s.data.map lowerChar⟩

/-- Does `needle` occur at the start of `hay`? Helper for `pyIn`. -/
def startsWithL : List Char → List Char → Bool
  | [], _ => true
  | _ :: _, [] => false
  | a :: as, b :: bs => a == b && startsWithL as bs

/-- Does `needle` occur contiguously anywhere in `hay`? Helper for `pyIn`. -/
def containsSeg (needle : List Char) : List Char → Bool
  | [] => startsWithL needle []
  | c :: t => startsWithL needle (c :: t) || containsSeg needle t

/-- Embedding of the Python substring test `needle in hay`. -/
def pyIn (needle hay : String) : Bool := containsSeg needle.data hay.data

/-- Helper for `pySplit`: split a character list on whitespace runs,
accumulating the current word in reverse. -/
def splitWsAux (cur : List Char) : List Char → List (List Char)
  | [] => if cur.isEmpty then [] else [cur.reverse]
  | c :: t =>
    if c.isWhitespace then
      if cur.isEmpty then splitWsAux [] t else cur.reverse :: splitWsAux [] t
    else splitWsAux (c :: cur) t

/-- Embedding of Python `s.split()` with no argument: split on runs of
whitespace, producing no empty words. -/
def pySplit (s : String) : List String := (splitWsAux [] s.data).map (fun cs => ⟨cs⟩)

/-- Decimal digit to its ASCII character. -/
def digitToChar (d : Nat) : Char := Char.ofNat (48 + d)

/-- ASCII character back to a decimal digit, `none` when it is not one. -/
def charToDigit (c : Char) : Option Nat :=
  if 48 ≤ c.toNat ∧ c.toNat ≤ 57 then some (c.toNat - 48) else none

/-- Parse a list of characters as decimal digits (most significant first). -/
def parseDigitsL : List Char → Option (List Nat)
  | [] => some []
  | c :: t =>
    match charToDigit c, parseDigitsL t with
    | some d, some ds => some (d :: ds)
    | _, _ => none

/-- Embedding of `datetime.isoformat()`: the instant (a `Nat`) rendered in
decimal, most significant digit first. -/
def isoformat (t : Nat) : String :=
  if t = 0 then ⟨[digitToChar 0]⟩ else ⟨(Nat.digits 10 t).reverse.map digitToChar⟩

/-- Embedding of `datetime.fromisoformat()`: parse the decimal text back to
the instant; unparseable text raises `ValueError` (the spec's
`InvalidTimestampError`). -/
def parseIso (s : String) : Except PyErr Nat :=
  match parseDigitsL s.data with
  | none => .error (.valueError "Invalid isoformat string")
  | some [] => .error (.valueError "Invalid isoformat string")
  | some (d :: ds) => .ok (Nat.ofDigits 10 (d :: ds).reverse)

/-- Embedding of the `Ingredient` dataclass of `src/shared/types/recipe.py`. -/
structure Ingredient where
  name : String
  amount : ℚ
  unit : String
  notes : Option String := none
deriving DecidableEq

/-- Embedding of the `NutritionInfo` dataclass: six independently optional
fields. This structure also stands for the six-key mapping emitted by
`NutritionInfo.to_dict` (the mapping always carries exactly these six keys,
with `None` for unset fields, so record and mapping are in bijection and
`NutritionInfo(**d)` is the inverse of `to_dict`). -/
structure NutritionInfo where
  calories_per_serving : Option ℚ := none
  protein_grams : Option ℚ := none
  carbs_grams : Option ℚ := none
  fat_grams : Option ℚ := none
  fiber_grams : Option ℚ := none
  sugar_grams : Option ℚ := none
deriving DecidableEq

/-- Embedding of the `Recipe` dataclass. `created_at` / `updated_at` default
to `datetime.now()` in Python, so every embedded constructor site takes the
ambient instant explicitly. -/
structure Recipe where
  id : String
  title : String
  description : String := ""
  cuisine_type : Option String := none
  dietary_tags : List String := []
  prep_time_minutes : Int := 0
  cook_time_minutes : Int := 0
  total_time_minutes : Int := 0
  servings : Int := 1
  difficulty_level : String := "intermediate"
  ingredients : List Ingredient := []
  instructions : List String := []
  nutrition : Option NutritionInfo := none
  equipment_required : List String := []
  image_url : Option String := none
  source_url : Option String := none
  source : String := "unknown"
  created_at : Nat := 0
  updated_at : Nat := 0
deriving DecidableEq

/-- The dictionary shape of `Ingredient.to_dict`. A field is `none` when the
key is absent; for `notes`, whose value may itself be `None` and is read with
`data.get("notes")`, key-absent and value-`None` are observationally the same
and collapse to `none`. -/
structure IngredientDict where
  name : Option String := none
  amount : Option ℚ := none
  unit : Option String := none
  notes : Option String := none
deriving DecidableEq

/-- Embedding of `Ingredient.to_dict`. -/
def Ingredient.to_dict (i : Ingredient) : IngredientDict :=
  { name := some i.name, amount := some i.amount, unit := some i.unit, notes := i.notes }

/-- Embedding of `Ingredient.from_dict`: `data["name"]`, `data["amount"]`,
`data["unit"]` raise `KeyError` when absent (in that evaluation order);
`data.get("notes")` defaults to `None`. -/
def Ingredient.from_dict (d : IngredientDict) : Except PyErr Ingredient :=
  match d.name, d.amount, d.unit with
  | some n, some a, some u => .ok { name := n, amount := a, unit := u, notes := d.notes }
  | none, _, _ => .error (.keyError "name")
  | _, none, _ => .error (.keyError "amount")
  | _, _, none => .error (.keyError "unit")

/-- The dictionary shape of `Recipe.to_dict`. Fields read back with a
defaultless `data.get(k)` and serialized from an `Optional` source
(`cuisine_type`, `nutrition`, `image_url`, `source_url`) collapse key-absent
and value-`None` to `none`, as in `IngredientDict`. -/
structure RecipeDict where
  id : Option String := none
  title : Option String := none
  description : Option String := none
  cuisine_type : Option String := none
  dietary_tags : Option (List String) := none
  prep_time_minutes : Option Int := none
  cook_time_minutes : Option Int := none
  total_time_minutes : Option Int := none
  servings : Option Int := none
  difficulty_level : Option String := none
  ingredients : Option (List IngredientDict) := none
  instructions : Option (List String) := none
  nutrition : Option NutritionInfo := none
  equipment_required : Option (List String) := none
  image_url : Option String := none
  source_url : Option String := none
  source : Option String := none
  created_at : Option String := none
  updated_at : Option String := none
deriving DecidableEq

/-- Embedding of `Recipe.to_dict`. -/
def Recipe.to_dict (r : Recipe) : RecipeDict :=
  { id := some r.id
    title := some r.title
    description := some r.description
    cuisine_type := r.cuisine_type
    dietary_tags := some r.dietary_tags
    prep_time_minutes := some r.prep_time_minutes
    cook_time_minutes := some r.cook_time_minutes
    total_time_minutes := some r.total_time_minutes
    servings := some r.servings
    difficulty_level := some r.difficulty_level
    ingredients := some (r.ingredients.map Ingredient.to_dict)
    instructions := some r.instructions
    nutrition := r.nutrition
    equipment_required := some r.equipment_required
    image_url := r.image_url
    source_url := r.source_url
    source := some r.source
    created_at := some (isoformat r.created_at)
    updated_at := some (isoformat r.updated_at) }

/-- Embedding of the list comprehension
`[Ingredient.from_dict(x) for x in data.get("ingredients", [])]`:
the first failing element raises. -/
def fromDictList : List IngredientDict → Except PyErr (List Ingredient)
  | [] => .ok []
  | d :: ds =>
    match Ingredient.from_dict d, fromDictList ds with
    | .ok i, .ok rest => .ok (i :: rest)
    | .error e, _ => .error e
    | _, .error e => .error e

/-- Embedding of `Recipe.from_dict`. Evaluation order follows the source:
the ingredient list first, then `data["id"]` / `data["title"]` (`KeyError`
when absent), then the timestamps, parsed from the stored text or from
`datetime.now().isoformat()` when the key is absent. The branch
`if data.get("nutrition"): NutritionInfo(**data["nutrition"])` reduces to
passing the field through, because the mapping emitted by
`NutritionInfo.to_dict` always has six keys and is therefore truthy. -/
def Recipe.from_dict (d : RecipeDict) (now : Nat) : Except PyErr Recipe :=
  match fromDictList (d.ingredients.getD []) with
  | .error e => .error e
  | .ok ings =>
    match d.id with
    | none => .error (.keyError "id")
    | some theId =>
      match d.title with
      | none => .error (.keyError "title")
      | some theTitle =>
        match parseIso ((d.created_at).getD (isoformat now)) with
        | .error e => .error e
        | .ok cAt =>
          match parseIso ((d.updated_at).getD (isoformat now)) with
          | .error e => .error e
          | .ok uAt =>
            .ok { id := theId
                  title := theTitle
                  description := d.description.getD ""
                  cuisine_type := d.cuisine_type
                  dietary_tags := d.dietary_tags.getD []
                  prep_time_minutes := d.prep_time_minutes.getD 0
                  cook_time_minutes := d.cook_time_minutes.getD 0
                  total_time_minutes := d.total_time_minutes.getD 0
                  servings := d.servings.getD 1
                  difficulty_level := d.difficulty_level.getD "intermediate"
                  ingredients := ings
                  instructions := d.instructions.getD []
                  nutrition := d.nutrition
                  equipment_required := d.equipment_required.getD []
                  image_url := d.image_url
                  source_url := d.source_url
                  source := d.source.getD "unknown"
                  created_at := cAt
                  updated_at := uAt }

/-- Embedding of `Recipe.scale_recipe` at value level. Python's
`new_servings / self.servings` is float division, modelled exactly on ℚ; the
`.copy()` calls on the three string lists are identity at value level (the
aliasing content of those copies is modelled by `scale_recipe_ref` below).
The returned recipe omits `created_at` / `updated_at`, so they default to
the call instant `now`. -/
def scale_recipe (r : Recipe) (new_servings : Int) (now : Nat) : Except PyErr Recipe :=
  if r.servings ≤ 0 then
    .error (.valueError "Cannot scale recipe with zero or negative servings")
  else
    let scale_factor : ℚ := (new_servings : ℚ) / (r.servings : ℚ)
    let scaled_ingredients := r.ingredients.map (fun ing =>
      { name := ing.name, amount := ing.amount * scale_factor,
        unit := ing.unit, notes := ing.notes : Ingredient })
    .ok { id := r.id ++ "_scaled_" ++ toString new_servings
          title := r.title ++ " (serves " ++ toString new_servings ++ ")"
          description := r.description
          cuisine_type := r.cuisine_type
          dietary_tags := r.dietary_tags
          prep_time_minutes := r.prep_time_minutes
          cook_time_minutes := r.cook_time_minutes
          total_time_minutes := r.total_time_minutes
          servings := new_servings
          difficulty_level := r.difficulty_level
          ingredients := scaled_ingredients
          instructions := r.instructions
          nutrition := r.nutrition
          equipment_required := r.equipment_required
          image_url := r.image_url
          source_url := r.source_url
          source := r.source
          created_at := now
          updated_at := now }

/-- A search-result record as seen by `_sort_by_relevance` in
`search_recipes.py`: only `"title"` and `"description"` are read (with
default `""`); `tag` stands for the rest of the dict and keeps otherwise
identical records distinguishable. -/
structure SearchResult where
  title : Option String := none
  description : Option String := none
  tag : Nat := 0
deriving DecidableEq

/-- Tokenization used by `_sort_by_relevance`: `s.lower().split()`. -/
def pyWords (s : String) : List String := pySplit (pyLower s)

/-- The `set(...)` of those tokens. -/
def wordSet (s : String) : Finset String := (pyWords s).toFinset

/-- Embedding of the inner `relevance_score` of `_sort_by_relevance`:
`len(query_words & title_words) * 2 + len(query_words & description_words)`. -/
def relevance_score (query : String) (recipe : SearchResult) : Nat :=
  let query_words := wordSet query
  let title_words := wordSet (recipe.title.getD "")
  let description_words := wordSet (recipe.description.getD "")
  (query_words ∩ title_words).card * 2 + (query_words ∩ description_words).card

/-- Stable descending insertion: place `a` before the first element of
strictly smaller score, i.e. after every earlier element of equal or larger
score. -/
def insertDesc {α : Type} (f : α → Nat) (a : α) : List α → List α
  | [] => [a]
  | b :: bs => if f b < f a then a :: b :: bs else b :: insertDesc f a bs

/-- Stable sort by `f` descending. Python's `sorted(xs, key=f, reverse=True)`
is specified (language reference) as the stable sort of the descending
preorder induced by the key — ties keep their input order — and any stable
algorithm realizes the same function; it is embedded as a stable insertion
sort. -/
def stableSortDesc {α : Type} (f : α → Nat) (l : List α) : List α :=
  l.foldl (fun acc a => insertDesc f a acc) []

/-- Embedding of `_sort_by_relevance` of `search_recipes.py`:
`sorted(recipes, key=relevance_score, reverse=True)`. -/
def sort_by_relevance (recipes : List SearchResult) (query : String) : List SearchResult :=
  stableSortDesc (relevance_score query) recipes

/-- One entry of a raw Spoonacular `nutrition.nutrients` list: an optional
`"name"` (read with default `""`) and optional `"amount"` (default `0`). -/
structure RawNutrient where
  name : Option String := none
  amount : Option ℚ := none
deriving DecidableEq

/-- The six `NutritionInfo` fields, as classification targets. -/
inductive NutField where
  | calories | protein | carbs | fat | fiber | sugar
deriving DecidableEq

/-- The `if/elif` classification chain of `_extract_nutrition_info` in
`spoonacular.py`, factored over the lowered nutrient name: first match wins,
and the `fat` branch additionally requires `"saturated" not in name`. -/
def classify_nutrient (rawName : String) : Option NutField :=
  let name := pyLower rawName
  if pyIn "calorie" name then some .calories
  else if pyIn "protein" name then some .protein
  else if pyIn "carbohydrate" name then some .carbs
  else if pyIn "fat" name && !(pyIn "saturated" name) then some .fat
  else if pyIn "fiber" name then some .fiber
  else if pyIn "sugar" name then some .sugar
  else none

/-- One loop iteration of `_extract_nutrition_info`: write the nutrient's
amount into the field its name classifies to (later writes overwrite). -/
def applyNutrient (acc : NutritionInfo) (nut : RawNutrient) : NutritionInfo :=
  let amount := nut.amount.getD 0
  match classify_nutrient (nut.name.getD "") with
  | some .calories => { acc with calories_per_serving := some amount }
  | some .protein => { acc with protein_grams := some amount }
  | some .carbs => { acc with carbs_grams := some amount }
  | some .fat => { acc with fat_grams := some amount }
  | some .fiber => { acc with fiber_grams := some amount }
  | some .sugar => { acc with sugar_grams := some amount }
  | none => acc

/-- Embedding of `_extract_nutrition_info` (detail path). The argument is
the `"nutrients"` value of the raw nutrition payload; `none` covers both a
falsy payload and a payload missing the `"nutrients"` key, the cases of
`if not raw_nutrition or "nutrients" not in raw_nutrition`. The final
`NutritionInfo(**nutrition_data) if nutrition_data else None` tests dict
non-emptiness, i.e. whether any field was ever assigned. -/
def extract_nutrition_info : Option (List RawNutrient) → Option NutritionInfo
  | none => none
  | some nutrients =>
    let nd := nutrients.foldl applyNutrient {}
    if nd = ({} : NutritionInfo) then none else some nd

/-- Insert-or-overwrite on an insertion-ordered string-keyed mapping, as
Python dict assignment behaves. -/
def dictSet (d : List (String × ℚ)) (k : String) (v : ℚ) : List (String × ℚ) :=
  if d.any (fun p => p.1 == k) then d.map (fun p => if p.1 == k then (k, v) else p)
  else d ++ [(k, v)]

/-- One loop iteration of `_extract_nutrition` (summary path): keep the
nutrient only when its lowered name is exactly one of the four listed keys. -/
def summaryNutStep (acc : List (String × ℚ)) (nut : RawNutrient) : List (String × ℚ) :=
  let name := pyLower (nut.name.getD "")
  if name ∈ (["calories", "protein", "carbohydrates", "fat"] : List String) then
    dictSet acc name (nut.amount.getD 0)
  else acc

/-- Embedding of `_extract_nutrition` (summary path); `none` again covers the
falsy / `"nutrients"`-less payloads, which return `{}`. -/
def extract_nutrition : Option (List RawNutrient) → List (String × ℚ)
  | none => []
  | some nutrients => nutrients.foldl summaryNutStep []

/-- One entry of a raw `extendedIngredients` list. -/
structure RawIngredient where
  name : Option String := none
  amount : Option ℚ := none
  unit : Option String := none
  original : Option String := none
deriving DecidableEq

/-- One element of a raw `instructions` value: a dict exposing an optional
`"steps"` list (each step read as `step.get("step", "")`), a plain string,
or anything else (skipped by the `isinstance` dispatch). -/
inductive RawInstruction where
  | block (steps : Option (List (Option String)))
  | text (s : String)
  | other
deriving DecidableEq

/-- The lines one raw instruction contributes in `_format_single_recipe`:
a dict whose `"steps"` is truthy (a non-empty list) contributes each step's
text in order, a plain string contributes itself, anything else nothing. -/
def instructionLines : RawInstruction → List String
  | .block (some (s :: ss)) => (s :: ss).map (fun st => st.getD "")
  | .block _ => []
  | .text s => [s]
  | .other => []

/-- A raw provider record (the Spoonacular search-result / detail shape, in
the fields the normalizer reads). `nutrition` is doubly optional: the outer
layer is the `"nutrition"` key, the inner the `"nutrients"` key of its value
(a present value without `"nutrients"` collapses to `some none`, which every
consumer treats exactly as the source treats such a payload). -/
structure RawDetail where
  id : Option Int := none
  title : Option String := none
  summary : Option String := none
  cuisines : Option (List String) := none
  diets : Option (List String) := none
  preparationMinutes : Option Int := none
  cookingMinutes : Option Int := none
  readyInMinutes : Option Int := none
  servings : Option Int := none
  extendedIngredients : Option (List RawIngredient) := none
  nutrition : Option (Option (List RawNutrient)) := none
  instructions : Option (List RawInstruction) := none
  equipment : Option (List String) := none
  image : Option String := none
  sourceUrl : Option String := none
deriving DecidableEq

/-- Python `str(x)` on the optional id: `str(None)` is `"None"`. -/
def pyStrOfOptId : Option Int → String
  | none => "None"
  | some n => toString n

/-- Embedding of `recipe_data.get("cuisines", [None])[0]` in
`_format_single_recipe`: a missing key defaults to `[None]`, whose first
element is `None`; a present but empty list makes the `[0]` subscript raise
`IndexError`. -/
def cuisineFirst : Option (List String) → Except PyErr (Option String)
  | none => .ok none
  | some [] => .error .indexError
  | some (c :: _) => .ok (some c)

/-- A summary ingredient dict built by `_extract_ingredients`. -/
structure SummaryIngredient where
  name : Option String := none
  amount : Option ℚ := none
  unit : Option String := none
  original_text : Option String := none
deriving DecidableEq

/-- Embedding of `_extract_ingredients`. -/
def extract_ingredients (raw : List RawIngredient) : List SummaryIngredient :=
  raw.map (fun i => { name := i.name, amount := i.amount, unit := i.unit, original_text := i.original })

/-- A summary record built by `_format_recipes` for one search result. -/
structure SummaryRecord where
  id : String
  title : Option String
  description : String
  image_url : Option String
  prep_time_minutes : Int
  cook_time_minutes : Int
  total_time_minutes : Int
  servings : Int
  source_url : Option String
  cuisine_type : List String
  dietary_tags : List String
  ingredients : List SummaryIngredient
  nutrition : List (String × ℚ)
  source : String
deriving DecidableEq

/-- Embedding of `_format_recipes` (search-summary path). The nutrition
argument `recipe.get("nutrition", {})` joins the two optional layers: a
missing key behaves exactly like a payload without a `"nutrients"` key. -/
def format_recipes (raws : List RawDetail) : List SummaryRecord :=
  raws.map (fun recipe =>
    { id := pyStrOfOptId recipe.id
      title := recipe.title
      description := recipe.summary.getD ""
      image_url := recipe.image
      prep_time_minutes := recipe.preparationMinutes.getD 0
      cook_time_minutes := recipe.cookingMinutes.getD 0
      total_time_minutes := recipe.readyInMinutes.getD 0
      servings := recipe.servings.getD 1
      source_url := recipe.sourceUrl
      cuisine_type := recipe.cuisines.getD []
      dietary_tags := recipe.diets.getD []
      ingredients := extract_ingredients (recipe.extendedIngredients.getD [])
      nutrition := extract_nutrition recipe.nutrition.join
      source := "spoonacular" })

/-- Embedding of `_format_single_recipe` (detail path). The ingredient,
nutrition and instruction computations are total, so the only raising
subterm is the cuisines subscript; the `if recipe_data.get("instructions")`
truthiness check makes an empty list contribute nothing. The constructor
omits `difficulty_level`, `created_at`, `updated_at`, which take their
dataclass defaults (`"intermediate"` and the call instant `now`). -/
def format_single_recipe (recipe_data : RawDetail) (now : Nat) : Except PyErr Recipe :=
  let ingredients := (recipe_data.extendedIngredients.getD []).map (fun ing =>
    { name := ing.name.getD "", amount := ing.amount.getD 0,
      unit := ing.unit.getD "", notes := ing.original : Ingredient })
  let nutrition := match recipe_data.nutrition with
    | some payload => extract_nutrition_info payload
    | none => none
  let instructions := match recipe_data.instructions with
    | some (b :: bs) => ((b :: bs).map instructionLines).flatten
    | _ => []
  match cuisineFirst recipe_data.cuisines with
  | .error e => .error e
  | .ok ct =>
    .ok { id := pyStrOfOptId recipe_data.id
          title := recipe_data.title.getD ""
          description := recipe_data.summary.getD ""
          cuisine_type := ct
          dietary_tags := recipe_data.diets.getD []
          prep_time_minutes := recipe_data.preparationMinutes.getD 0
          cook_time_minutes := recipe_data.cookingMinutes.getD 0
          total_time_minutes := recipe_data.readyInMinutes.getD 0
          servings := recipe_data.servings.getD 1
          ingredients := ingredients
          instructions := instructions
          nutrition := nutrition
          equipment_required := recipe_data.equipment.getD []
          image_url := recipe_data.image
          source_url := recipe_data.sourceUrl
          source := "spoonacular"
          created_at := now
          updated_at := now }

/-- A heap of the mutable Python objects a `Recipe` aggregates: cells for
string lists (`dietary_tags`, `instructions`, `equipment_required`), for
ingredient lists, and for `NutritionInfo` objects. Addresses are indices. -/
structure Store where
  strCells : List (List String)
  ingCells : List (List Ingredient)
  nutCells : List NutritionInfo
deriving DecidableEq

/-- Read a string-list cell. -/
def Store.readStr (st : Store) (a : Nat) : List String := st.strCells.getD a []

/-- Read an ingredient-list cell. -/
def Store.readIngs (st : Store) (a : Nat) : List Ingredient := st.ingCells.getD a []

/-- Read a `NutritionInfo` cell. -/
def Store.readNut (st : Store) (a : Nat) : NutritionInfo := st.nutCells.getD a {}

/-- Allocate a fresh string-list object. -/
def Store.allocStr (st : Store) (v : List String) : Store × Nat :=
  ({ st with strCells := st.strCells ++ [v] }, st.strCells.length)

/-- Allocate a fresh ingredient-list object. -/
def Store.allocIngs (st : Store) (v : List Ingredient) : Store × Nat :=
  ({ st with ingCells := st.ingCells ++ [v] }, st.ingCells.length)

/-- Mutate the `NutritionInfo` object at address `a` in place. -/
def Store.setNut (st : Store) (a : Nat) (v : NutritionInfo) : Store :=
  { st with nutCells := st.nutCells.set a v }

/-- `Recipe` with its mutable components held by reference: the four list
fields are addresses of store cells and `nutrition` an optional address. -/
structure RecipeRef where
  id : String
  title : String
  description : String := ""
  cuisine_type : Option String := none
  dietary_tags : Nat
  prep_time_minutes : Int := 0
  cook_time_minutes : Int := 0
  total_time_minutes : Int := 0
  servings : Int := 1
  difficulty_level : String := "intermediate"
  ingredients : Nat
  instructions : Nat
  nutrition : Option Nat := none
  equipment_required : Nat
  image_url : Option String := none
  source_url : Option String := none
  source : String := "unknown"
  created_at : Nat := 0
  updated_at : Nat := 0
deriving DecidableEq

/-- Embedding of `Recipe.scale_recipe` at store level, making object
identity explicit: the scaled ingredient list is a freshly allocated list of
freshly built `Ingredient` objects, and `dietary_tags.copy()`,
`instructions.copy()`, `equipment_required.copy()` allocate fresh cells with
the same contents — but `nutrition=self.nutrition` passes the address along
unchanged, so original and scaled recipe reference the same
`NutritionInfo` object. -/
def scale_recipe_ref (st : Store) (r : RecipeRef) (new_servings : Int) (now : Nat) :
    Except PyErr (Store × RecipeRef) :=
  if r.servings ≤ 0 then
    .error (.valueError "Cannot scale recipe with zero or negative servings")
  else
    let scale_factor : ℚ := (new_servings : ℚ) / (r.servings : ℚ)
    let scaled_ingredients := (st.readIngs r.ingredients).map (fun ing =>
      { name := ing.name, amount := ing.amount * scale_factor,
        unit := ing.unit, notes := ing.notes : Ingredient })
    let p1 := st.allocIngs scaled_ingredients
    let p2 := p1.1.allocStr (st.readStr r.dietary_tags)
    let p3 := p2.1.allocStr (st.readStr r.instructions)
    let p4 := p3.1.allocStr (st.readStr r.equipment_required)
    .ok (p4.1,
      { id := r.id ++ "_scaled_" ++ toString new_servings
        title := r.title ++ " (serves " ++ toString new_servings ++ ")"
        description := r.description
        cuisine_type := r.cuisine_type
        dietary_tags := p2.2
        prep_time_minutes := r.prep_time_minutes
        cook_time_minutes := r.cook_time_minutes
        total_time_minutes := r.total_time_minutes
        servings := new_servings
        difficulty_level := r.difficulty_level
        ingredients := p1.2
        instructions := p3.2
        nutrition := r.nutrition
        equipment_required := p4.2
        image_url := r.image_url
        source_url := r.source_url
        source := r.source
        created_at := now
        updated_at := now })

/-- The "Beef Stroganoff" result of the repository's ranking example. -/
def exBeefStroganoff : SearchResult :=
  { title := some "Beef Stroganoff", description := some "Creamy beef dish", tag := 0 }

/-- The "Chicken Parmesan" result of the repository's ranking example. -/
def exChickenParmesan : SearchResult :=
  { title := some "Chicken Parmesan", description := some "Italian chicken with parmesan", tag := 1 }

/-- The "Parmesan Chicken Salad" result of the repository's ranking example. -/
def exParmesanChickenSalad : SearchResult :=
  { title := some "Parmesan Chicken Salad", description := some "Fresh salad with chicken", tag := 2 }

/-- The three-recipe input list of the ranking example, in its input order. -/
def exampleRecipes : List SearchResult :=
  [exBeefStroganoff, exChickenParmesan, exParmesanChickenSalad]

theorem mem_insertDesc {α : Type} (f : α → Nat) (a x : α) (l : List α) :
    x ∈ insertDesc f a l ↔ x = a ∨ x ∈ l := by
  induction l with
  | nil => simp [insertDesc]
  | cons b bs ih =>
    simp only [insertDesc]
    split
    · simp [List.mem_cons]
    · simp only [List.mem_cons, ih]
      tauto

theorem insertDesc_pairwise {α : Type} (f : α → Nat) (a : α) {l : List α}
    (h : l.Pairwise (fun x y => f y ≤ f x)) :
    (insertDesc f a l).Pairwise (fun x y => f y ≤ f x) := by
  induction l with
  | nil => simp [insertDesc]
  | cons b bs ih =>
    rcases List.pairwise_cons.1 h with ⟨hb, hbs⟩
    simp only [insertDesc]
    split
    · rename_i hlt
      refine List.pairwise_cons.2 ⟨?_, h⟩
      intro x hx
      rcases List.mem_cons.1 hx with rfl | hx
      · omega
      · have := hb x hx; omega
    · rename_i hge
      refine List.pairwise_cons.2 ⟨?_, ih hbs⟩
      intro x hx
      rcases (mem_insertDesc f a x bs).1 hx with rfl | hx
      · omega
      · exact hb x hx

theorem foldl_insertDesc_pairwise {α : Type} (f : α → Nat) (l : List α) :
    ∀ acc : List α, acc.Pairwise (fun x y => f y ≤ f x) →
      (l.foldl (fun acc a => insertDesc f a acc) acc).Pairwise (fun x y => f y ≤ f x) := by
  induction l with
  | nil => intro acc h; simpa using h
  | cons a l ih => intro acc h; exact ih _ (insertDesc_pairwise f a h)

theorem stableSortDesc_pairwise {α : Type} (f : α → Nat) (l : List α) :
    (stableSortDesc f l).Pairwise (fun x y => f y ≤ f x) :=
  foldl_insertDesc_pairwise f l [] (by simp)

theorem filter_sorted_head_lt {α : Type} (f : α → Nat) (s : Nat) {b : α} {bs : List α}
    (h : (b :: bs).Pairwise (fun x y => f y ≤ f x)) (hb : f b < s) :
    (b :: bs).filter (fun x => f x == s) = [] := by
  rcases List.pairwise_cons.1 h with ⟨hd, _⟩
  rw [List.filter_eq_nil_iff]
  intro x hx
  rcases List.mem_cons.1 hx with rfl | hx
  · simp only [beq_iff_eq]; omega
  · have := hd x hx; simp only [beq_iff_eq]; omega

theorem filter_insertDesc {α : Type} (f : α → Nat) (s : Nat) (a : α) {l : List α}
    (h : l.Pairwise (fun x y => f y ≤ f x)) :
    (insertDesc f a l).filter (fun x => f x == s)
      = if f a == s then l.filter (fun x => f x == s) ++ [a]
        else l.filter (fun x => f x == s) := by
  induction l with
  | nil =>
    by_cases hpa : f a == s <;> simp [insertDesc, hpa]
  | cons b bs ih =>
    rcases List.pairwise_cons.1 h with ⟨hd, hbs⟩
    simp only [insertDesc]
    split
    · rename_i hlt
      by_cases hpa : f a == s
      · have hfa : f a = s := by simpa using hpa
        have hnil : (b :: bs).filter (fun x => f x == s) = [] :=
          filter_sorted_head_lt f s h (by omega)
        simp [List.filter_cons, hpa, hnil]
      · simp [List.filter_cons, hpa]
    · rename_i hge
      have ihh := ih hbs
      by_cases hpb : f b == s <;> by_cases hpa : f a == s <;>
        simp [List.filter_cons, hpb, hpa, ihh]

theorem foldl_insertDesc_filter {α : Type} (f : α → Nat) (s : Nat) (l : List α) :
    ∀ acc : List α, acc.Pairwise (fun x y => f y ≤ f x) →
      (l.foldl (fun acc a => insertDesc f a acc) acc).filter (fun x => f x == s)
        = acc.filter (fun x => f x == s) ++ l.filter (fun x => f x == s) := by
  induction l with
  | nil => intro acc h; simp
  | cons a l ih =>
    intro acc h
    rw [List.foldl_cons, ih _ (insertDesc_pairwise f a h), filter_insertDesc f s a h]
    by_cases hpa : f a == s <;> simp [List.filter_cons, hpa]

theorem stableSortDesc_filter {α : Type} (f : α → Nat) (s : Nat) (l : List α) :
    (stableSortDesc f l).filter (fun x => f x == s) = l.filter (fun x => f x == s) := by
  have h := foldl_insertDesc_filter f s l [] (by simp)
  simpa [stableSortDesc] using h

theorem stableSortDesc_of_const_zero {α : Type} (f : α → Nat) (l : List α)
    (h : ∀ x, f x = 0) : stableSortDesc f l = l := by
  have h1 := stableSortDesc_filter f 0 l
  have e1 : (stableSortDesc f l).filter (fun x => f x == 0) = stableSortDesc f l :=
    List.filter_eq_self.2 (fun a _ => by simp [h a])
  have e2 : l.filter (fun x => f x == 0) = l :=
    List.filter_eq_self.2 (fun a _ => by simp [h a])
  rw [e1, e2] at h1
  exact h1

theorem listGetD_append_lt {α : Type} (l₁ l₂ : List α) (d : α) (i : Nat)
    (h : i < l₁.length) : (l₁ ++ l₂).getD i d = l₁.getD i d := by
  induction l₁ generalizing i with
  | nil => simp at h
  | cons a t ih =>
    cases i with
    | zero => rfl
    | succ n =>
      have : n < t.length := by simpa using h
      simpa [List.getD_cons_succ] using ih n this

theorem listGetD_append_len {α : Type} (l₁ l₂ : List α) (v d : α) :
    (l₁ ++ v :: l₂).getD l₁.length d = v := by
  induction l₁ with
  | nil => rfl
  | cons a t ih => simpa [List.getD_cons_succ] using ih

theorem charToDigit_digitToChar (d : Nat) (h : d < 10) :
    charToDigit (digitToChar d) = some d := by
  interval_cases d <;> decide

theorem parseDigitsL_map (l : List Nat) (h : ∀ d ∈ l, d < 10) :
    parseDigitsL (l.map digitToChar) = some l := by
  induction l with
  | nil => rfl
  | cons d ds ih =>
    have hd : d < 10 := h d (by simp)
    have hds : ∀ x ∈ ds, x < 10 := fun x hx => h x (by simp [hx])
    simp [parseDigitsL, charToDigit_digitToChar d hd, ih hds]

theorem parseIso_isoformat (t : Nat) : parseIso (isoformat t) = .ok t := by
  by_cases ht : t = 0
  · subst ht; rfl
  · have hd : ∀ d ∈ (Nat.digits 10 t).reverse, d < 10 := fun d hh =>
      Nat.digits_lt_base (by norm_num) (List.mem_reverse.1 hh)
    have hne : (Nat.digits 10 t).reverse ≠ [] := by
      simp [Nat.digits_ne_nil_iff_ne_zero, ht]
    rcases List.exists_cons_of_ne_nil hne with ⟨d, ds, hrev⟩
    have hdata : (isoformat t).data = ((Nat.digits 10 t).reverse).map digitToChar := by
      simp [isoformat, ht]
    unfold parseIso
    rw [hdata, parseDigitsL_map _ hd, hrev]
    have hback : (d :: ds).reverse = Nat.digits 10 t := by
      rw [← hrev, List.reverse_reverse]
    simp [hback, Nat.ofDigits_digits]

theorem fromDictList_to_dict (l : List Ingredient) :
    fromDictList (l.map Ingredient.to_dict) = .ok l := by
  induction l with
  | nil => rfl
  | cons i t ih => simp [fromDictList, Ingredient.from_dict, Ingredient.to_dict, ih]

/-- A sample recipe with positive servings, for witnesses. -/
def c1SampleRecipe : Recipe :=
  { id := "r1", title := "Pancakes", servings := 2,
    ingredients := [{ name := "flour", amount := 3, unit := "cups" }] }

/-- C1: for every Recipe `r` with `servings > 0` and every positive integer
`n`, `scale_recipe n` returns a Recipe whose `servings` is `n`, whose i-th
ingredient amount is the original amount times `n / r.servings` with name,
unit and notes unchanged, and whose id and title are the derived
`"{id}_scaled_{n}"` and `"{title} (serves {n})"` strings. -/
theorem c1_scale_recipe_functional (r : Recipe) (n : Int) (now : Nat)
    (hs : 0 < r.servings) (hn : 0 < n) :
    ∃ r2, scale_recipe r n now = Except.ok r2 ∧
      r2.servings = n ∧
      r2.id = r.id ++ "_scaled_" ++ toString n ∧
      r2.title = r.title ++ " (serves " ++ toString n ++ ")" ∧
      (∀ i : Nat, r2.ingredients[i]? = (r.ingredients[i]?).map (fun ing =>
        { name := ing.name, amount := ing.amount * ((n : ℚ) / (r.servings : ℚ)),
          unit := ing.unit, notes := ing.notes })) := by
  have hcond : ¬ r.servings ≤ 0 := by omega
  unfold scale_recipe
  rw [if_neg hcond]
  refine ⟨_, rfl, rfl, rfl, rfl, fun i => ?_⟩
  simp [List.getElem?_map]

/-- Witness for C1 at a concrete recipe: servings 2 scaled to 4, the single
flour amount 3 becoming 3 * (4 / 2). -/
theorem c1_witness :
    ∃ r2, scale_recipe c1SampleRecipe 4 7 = Except.ok r2 ∧
      r2.servings = 4 ∧
      r2.id = c1SampleRecipe.id ++ "_scaled_" ++ toString (4 : Int) ∧
      r2.title = c1SampleRecipe.title ++ " (serves " ++ toString (4 : Int) ++ ")" ∧
      (∀ i : Nat, r2.ingredients[i]? = (c1SampleRecipe.ingredients[i]?).map (fun ing =>
        { name := ing.name,
          amount := ing.amount * (((4 : Int) : ℚ) / (c1SampleRecipe.servings : ℚ)),
          unit := ing.unit, notes := ing.notes })) :=
  c1_scale_recipe_functional c1SampleRecipe 4 7 (by decide) (by decide)

/-- A sample recipe with zero servings, for witnesses. -/
def c2SampleRecipe : Recipe := { id := "x", title := "T", servings := 0 }

/-- C2: for every Recipe with `servings <= 0` and every integer `n`,
`scale_recipe` raises (the `ValueError` the spec calls `InvalidScaleError`)
instead of returning a Recipe — at value level and at store level, where no
new store escapes the failed call, so the original recipe and every cell it
references are left untouched. -/
theorem c2_scale_nonpositive_servings_raises :
    (∀ (r : Recipe) (n : Int) (now : Nat), r.servings ≤ 0 →
      scale_recipe r n now
        = .error (.valueError "Cannot scale recipe with zero or negative servings")) ∧
    (∀ (st : Store) (r : RecipeRef) (n : Int) (now : Nat), r.servings ≤ 0 →
      scale_recipe_ref st r n now
        = .error (.valueError "Cannot scale recipe with zero or negative servings")) := by
  constructor
  · intro r n now h; unfold scale_recipe; rw [if_pos h]
  · intro st r n now h; unfold scale_recipe_ref; rw [if_pos h]

/-- Witness for C2: the zero-servings sample raises. -/
theorem c2_witness :
    scale_recipe c2SampleRecipe 4 0
      = .error (.valueError "Cannot scale recipe with zero or negative servings") :=
  c2_scale_nonpositive_servings_raises.1 c2SampleRecipe 4 0 (by decide)

/-- A sample recipe for the C10 witness. -/
def c10SampleRecipe : Recipe :=
  { id := "r", title := "T", servings := 2,
    ingredients := [{ name := "salt", amount := 1, unit := "tsp" }] }

/-- C10: `scale_recipe` does not validate `new_servings`: with positive
current servings it returns normally for every `n ≤ 0`, with `servings = n`
and amounts scaled by the non-positive factor `n / servings`; and it raises
exactly when the current servings are non-positive. -/
theorem c10_scale_accepts_nonpositive_new_servings :
    (∀ (r : Recipe) (n : Int) (now : Nat), 0 < r.servings → n ≤ 0 →
      ∃ r2, scale_recipe r n now = Except.ok r2 ∧ r2.servings = n ∧
        (∀ i : Nat, r2.ingredients[i]? = (r.ingredients[i]?).map (fun ing =>
          { name := ing.name, amount := ing.amount * ((n : ℚ) / (r.servings : ℚ)),
            unit := ing.unit, notes := ing.notes }))) ∧
    (∀ (r : Recipe) (n : Int) (now : Nat),
      (∃ e, scale_recipe r n now = Except.error e) ↔ r.servings ≤ 0) := by
  constructor
  · intro r n now hs hn
    have hcond : ¬ r.servings ≤ 0 := by omega
    unfold scale_recipe
    rw [if_neg hcond]
    exact ⟨_, rfl, rfl, fun i => by simp [List.getElem?_map]⟩
  · intro r n now
    constructor
    · rintro ⟨e, he⟩
      by_contra hpos
      unfold scale_recipe at he
      rw [if_neg hpos] at he
      simp at he
    · intro h
      unfold scale_recipe
      rw [if_pos h]
      exact ⟨_, rfl⟩

/-- Witness for C10: scaling the 2-serving sample to -2 servings returns
normally with the negative factor. -/
theorem c10_witness :
    ∃ r2, scale_recipe c10SampleRecipe (-2) 0 = Except.ok r2 ∧ r2.servings = -2 ∧
      (∀ i : Nat, r2.ingredients[i]? = (c10SampleRecipe.ingredients[i]?).map (fun ing =>
        { name := ing.name,
          amount := ing.amount * ((((-2) : Int) : ℚ) / (c10SampleRecipe.servings : ℚ)),
          unit := ing.unit, notes := ing.notes })) :=
  c10_scale_accepts_nonpositive_new_servings.1 c10SampleRecipe (-2) 0 (by decide) (by decide)

/-- C4: `Recipe.from_dict (Recipe.to_dict r)` reconstructs `r` exactly; in
particular the claim's allowance for the timestamps holds, since
`fromisoformat ∘ isoformat` is the identity at the serialized precision
(`parseIso_isoformat`). -/
theorem c4_to_dict_from_dict_roundtrip (r : Recipe) (now : Nat) :
    Recipe.from_dict (Recipe.to_dict r) now = Except.ok r := by
  unfold Recipe.from_dict Recipe.to_dict
  simp [fromDictList_to_dict, parseIso_isoformat]

/-- C5: ranking is a stable sort — for every score value, the subsequence of
results with that computed score is exactly the input subsequence (equal
scores keep their input order); and for the empty query every result scores
0, so the output equals the input. -/
theorem c5_rank_stable_ties :
    (∀ (recipes : List SearchResult) (query : String) (s : Nat),
      (sort_by_relevance recipes query).filter (fun r => relevance_score query r == s)
        = recipes.filter (fun r => relevance_score query r == s)) ∧
    (∀ r : SearchResult, relevance_score "" r = 0) ∧
    (∀ recipes : List SearchResult, sort_by_relevance recipes "" = recipes) := by
  have hzero : ∀ r : SearchResult, relevance_score "" r = 0 := by
    intro r
    simp [relevance_score, wordSet, pyWords, pySplit, pyLower, splitWsAux]
  refine ⟨?_, hzero, ?_⟩
  · intro recipes query s
    exact stableSortDesc_filter (relevance_score query) s recipes
  · intro recipes
    exact stableSortDesc_of_const_zero _ recipes hzero

/-- C6: ranking orders results by descending score
`2 × |query ∩ title| + |query ∩ description|` over lower-cased
whitespace-split token sets; duplicate query tokens collapse (queries with
the same token set score identically); and on the repository's three-recipe
example with query "chicken parmesan" the output order is Chicken Parmesan,
Parmesan Chicken Salad, Beef Stroganoff. -/
theorem c6_rank_descending_score :
    (∀ (recipes : List SearchResult) (query : String),
      List.Sorted (fun a b => relevance_score query b ≤ relevance_score query a)
        (sort_by_relevance recipes query)) ∧
    (∀ (query : String) (r : SearchResult),
      relevance_score query r
        = 2 * ((wordSet query) ∩ (wordSet (r.title.getD ""))).card
          + ((wordSet query) ∩ (wordSet (r.description.getD ""))).card) ∧
    (∀ (q1 q2 : String), wordSet q1 = wordSet q2 →
      ∀ r, relevance_score q1 r = relevance_score q2 r) ∧
    (sort_by_relevance exampleRecipes "chicken parmesan"
      = [exChickenParmesan, exParmesanChickenSalad, exBeefStroganoff]) := by
  refine ⟨?_, ?_, ?_, by decide⟩
  · intro recipes query
    exact stableSortDesc_pairwise (relevance_score query) recipes
  · intro query r
    simp only [relevance_score]
    omega
  · intro q1 q2 h r
    simp [relevance_score, h]

/-- Witness for C6: a duplicated query token does not change the score of a
concrete result. -/
theorem c6_witness :
    wordSet "chicken chicken parmesan" = wordSet "chicken parmesan" ∧
    relevance_score "chicken chicken parmesan" exChickenParmesan
      = relevance_score "chicken parmesan" exChickenParmesan :=
  ⟨by decide,
   c6_rank_descending_score.2.2.1 "chicken chicken parmesan" "chicken parmesan"
     (by decide) exChickenParmesan⟩

/-- C7 counterexample: the claim as stated — any nutrient name containing
"fat" and not "saturated" populates `fat_grams` — fails: `"Protein Fat"`
contains "fat" and not "saturated", yet the earlier `"protein"` branch of
the `if/elif` chain wins, so the amount lands in `protein_grams` and
`fat_grams` stays unset. -/
theorem c7_counterexample :
    pyIn "fat" (pyLower "Protein Fat") = true ∧
    pyIn "saturated" (pyLower "Protein Fat") = false ∧
    extract_nutrition_info (some [{ name := some "Protein Fat", amount := some 5 }])
      = some { protein_grams := some 5 } ∧
    ({ protein_grams := some (5 : ℚ) } : NutritionInfo).fat_grams = none :=
  ⟨by decide, by decide, by decide, rfl⟩

/-- C7 (amended): a nutrient name containing "saturated" never classifies to
`fat_grams` (so "Saturated Fat" does not populate it); "Total Fat" does; a
name containing "fat" but none of "saturated", "calorie", "protein",
"carbohydrate" classifies to `fat_grams`; `applyNutrient` writes `fat_grams`
exactly for fat-classified nutrients; and the result is no nutrition info
when the payload is absent or classifies zero fields. -/
theorem c7_detail_fat_classification :
    (∀ name : String, pyIn "saturated" (pyLower name) = true →
      classify_nutrient name ≠ some NutField.fat) ∧
    (classify_nutrient "Total Fat" = some NutField.fat) ∧
    (classify_nutrient "Saturated Fat" = none) ∧
    (∀ name : String, pyIn "fat" (pyLower name) = true →
      pyIn "saturated" (pyLower name) = false →
      pyIn "calorie" (pyLower name) = false →
      pyIn "protein" (pyLower name) = false →
      pyIn "carbohydrate" (pyLower name) = false →
      classify_nutrient name = some NutField.fat) ∧
    (∀ (acc : NutritionInfo) (nut : RawNutrient),
      classify_nutrient (nut.name.getD "") ≠ some NutField.fat →
      (applyNutrient acc nut).fat_grams = acc.fat_grams) ∧
    (∀ (acc : NutritionInfo) (nut : RawNutrient),
      classify_nutrient (nut.name.getD "") = some NutField.fat →
      (applyNutrient acc nut).fat_grams = some (nut.amount.getD 0)) ∧
    (extract_nutrition_info none = none) ∧
    (∀ nutrients : List RawNutrient,
      nutrients.foldl applyNutrient {} = ({} : NutritionInfo) →
      extract_nutrition_info (some nutrients) = none) := by
  refine ⟨?_, by decide, by decide, ?_, ?_, ?_, rfl, ?_⟩
  · intro name h
    simp only [classify_nutrient]
    split_ifs with h1 h2 h3 h4 h5 h6 <;> simp_all
  · intro name hfat hsat hcal hpro hcarb
    simp only [classify_nutrient]
    split_ifs with h1 h2 h3 h4 <;> simp_all
  · intro acc nut h
    cases hc : classify_nutrient (nut.name.getD "") with
    | none => simp [applyNutrient, hc]
    | some f =>
      cases f
      case fat => exact absurd hc h
      all_goals simp [applyNutrient, hc]
  · intro acc nut h
    simp [applyNutrient, h]
  · intro nutrients h
    simp [extract_nutrition_info, h]

/-- Witness for C7: the amended rules applied at "Saturated Fat" and
"Total Fat". -/
theorem c7_witness :
    classify_nutrient "Saturated Fat" ≠ some NutField.fat ∧
    classify_nutrient "Total Fat" = some NutField.fat :=
  ⟨c7_detail_fat_classification.1 "Saturated Fat" (by decide),
   c7_detail_fat_classification.2.1⟩

/-- A raw detail record whose provider cuisine list is present but empty. -/
def c8EmptyCuisines : RawDetail := { cuisines := some [] }

/-- A raw detail record with a one-element cuisine list. -/
def c8Sample : RawDetail := { cuisines := some ["Italian"] }

/-- C8 counterexample: the claim says an empty provider cuisine list yields
an absent `cuisine_type` and that normalization never fails on it, but
`recipe_data.get("cuisines", [None])[0]` subscripts the empty list and
raises `IndexError`. -/
theorem c8_counterexample :
    format_single_recipe c8EmptyCuisines 0 = Except.error PyErr.indexError := rfl

/-- C8 (amended): `cuisine_type` is the first element of the provider
cuisine list when that list is non-empty, and absent when the `"cuisines"`
key is missing (the `[None]` default); when the key is present with an empty
list, `_format_single_recipe` raises `IndexError` instead of returning. -/
theorem c8_cuisine_first_of_nonempty :
    (∀ (d : RawDetail) (now : Nat) (c : String) (cs : List String),
      d.cuisines = some (c :: cs) →
      ∃ r, format_single_recipe d now = Except.ok r ∧ r.cuisine_type = some c) ∧
    (∀ (d : RawDetail) (now : Nat), d.cuisines = none →
      ∃ r, format_single_recipe d now = Except.ok r ∧ r.cuisine_type = none) ∧
    (∀ (d : RawDetail) (now : Nat), d.cuisines = some [] →
      format_single_recipe d now = Except.error PyErr.indexError) := by
  refine ⟨?_, ?_, ?_⟩
  · intro d now c cs h
    unfold format_single_recipe
    rw [h]
    exact ⟨_, rfl, rfl⟩
  · intro d now h
    unfold format_single_recipe
    rw [h]
    exact ⟨_, rfl, rfl⟩
  · intro d now h
    unfold format_single_recipe
    rw [h]
    rfl

/-- Witness for C8: a one-element cuisine list normalizes with its head as
`cuisine_type`. -/
theorem c8_witness :
    ∃ r, format_single_recipe c8Sample 0 = Except.ok r ∧ r.cuisine_type = some "Italian" :=
  c8_cuisine_first_of_nonempty.1 c8Sample 0 "Italian" [] rfl

theorem mem_dictSet (d : List (String × ℚ)) (k : String) (v : ℚ) (kv : String × ℚ)
    (h : kv ∈ dictSet d k v) : kv ∈ d ∨ kv = (k, v) := by
  unfold dictSet at h
  split at h
  · rcases List.mem_map.1 h with ⟨p, hp, he⟩
    by_cases hk : p.1 == k
    · rw [if_pos hk] at he
      right; exact he.symm
    · rw [if_neg hk] at he
      left; exact he ▸ hp
  · rcases List.mem_append.1 h with h1 | h1
    · left; exact h1
    · right; simpa using h1

theorem mem_summaryNutStep (acc : List (String × ℚ)) (nut : RawNutrient) (kv : String × ℚ)
    (h : kv ∈ summaryNutStep acc nut) :
    kv ∈ acc ∨ (kv.1 ∈ (["calories", "protein", "carbohydrates", "fat"] : List String) ∧
      kv.1 = pyLower (nut.name.getD "")) := by
  simp only [summaryNutStep] at h
  split at h
  · rename_i hin
    rcases mem_dictSet _ _ _ _ h with h1 | h1
    · left; exact h1
    · right
      rw [h1]
      exact ⟨hin, rfl⟩
  · left; exact h

theorem mem_foldl_summaryNutStep (nuts : List RawNutrient) :
    ∀ (acc : List (String × ℚ)) (kv : String × ℚ), kv ∈ nuts.foldl summaryNutStep acc →
      kv ∈ acc ∨ ∃ nut ∈ nuts,
        kv.1 ∈ (["calories", "protein", "carbohydrates", "fat"] : List String) ∧
        kv.1 = pyLower (nut.name.getD "") := by
  induction nuts with
  | nil => intro acc kv h; left; simpa using h
  | cons n ns ih =>
    intro acc kv h
    rcases ih _ kv h with h1 | ⟨nut, hn, hp⟩
    · rcases mem_summaryNutStep acc n kv h1 with h2 | h2
      · left; exact h2
      · right; exact ⟨n, by simp, h2⟩
    · right; exact ⟨nut, by simp [hn], hp⟩

/-- The payload of the C9 witness. -/
def c9Payload : List RawNutrient := [{ name := some "Calories", amount := some 250 }]

/-- C9: the summary nutrition mapping only ever carries keys from the four
listed names, each contributed by a nutrient whose lower-cased name is
exactly that key; an absent or nutrient-less payload yields the empty
mapping; `_format_recipes` passes the mapping through unchanged; and a
"Sodium" nutrient is silently dropped. -/
theorem c9_summary_nutrition_exact_four :
    (∀ (payload : Option (List RawNutrient)) (kv : String × ℚ),
      kv ∈ extract_nutrition payload →
        kv.1 ∈ (["calories", "protein", "carbohydrates", "fat"] : List String) ∧
        ∃ nut ∈ payload.getD [], pyLower (nut.name.getD "") = kv.1) ∧
    (extract_nutrition none = []) ∧
    (∀ recipe : RawDetail,
      (format_recipes [recipe]).map (fun rec => rec.nutrition)
        = [extract_nutrition recipe.nutrition.join]) ∧
    (extract_nutrition (some [{ name := some "Sodium", amount := some 500 }]) = []) := by
  refine ⟨?_, rfl, fun recipe => rfl, by decide⟩
  intro payload kv h
  cases payload with
  | none => simp [extract_nutrition] at h
  | some nuts =>
    rcases mem_foldl_summaryNutStep nuts [] kv h with h1 | ⟨nut, hn, h2, h3⟩
    · simp at h1
    · exact ⟨h2, nut, by simpa using hn, h3.symm⟩

/-- Witness for C9: the key contributed by a concrete "Calories" nutrient is
one of the four and names that nutrient. -/
theorem c9_witness :
    ("calories", (250 : ℚ)).1 ∈ (["calories", "protein", "carbohydrates", "fat"] : List String) ∧
    ∃ nut ∈ (some c9Payload : Option (List RawNutrient)).getD [],
      pyLower (nut.name.getD "") = ("calories", (250 : ℚ)).1 :=
  c9_summary_nutrition_exact_four.1 (some c9Payload) ("calories", 250) (by decide)

/-- The nutrition object of the C3 counterexample store. -/
def c3Nut : NutritionInfo := { calories_per_serving := some 300 }

/-- The value written into that object when mutating it in place. -/
def c3NutMut : NutritionInfo := { calories_per_serving := some 999 }

/-- A store holding the original recipe's three string lists, its ingredient
list and its nutrition object. -/
def c3Store : Store :=
  { strCells := [["vegan"], ["mix"], ["pan"]],
    ingCells := [[{ name := "flour", amount := 2, unit := "cups" }]],
    nutCells := [c3Nut] }

/-- The original recipe of the C3 counterexample, referencing the cells of
`c3Store`. -/
def c3RecipeRef : RecipeRef :=
  { id := "r1", title := "T", servings := 4, dietary_tags := 0, ingredients := 0,
    instructions := 1, equipment_required := 2, nutrition := some 0 }

/-- C3 counterexample: the scaled recipe's `nutrition` is the very same
object reference as the original's (`nutrition=self.nutrition` is not a
copy), so mutating the object the scaled recipe references in place changes
what the original recipe reads — refuting the claim that no mutation of the
scaled recipe's components is observable through the original. -/
theorem c3_counterexample :
    (scale_recipe_ref c3Store c3RecipeRef 8 0).map (fun p => p.2.nutrition)
      = Except.ok c3RecipeRef.nutrition ∧
    c3RecipeRef.nutrition = some 0 ∧
    (scale_recipe_ref c3Store c3RecipeRef 8 0).map
        (fun p => (p.1.setNut 0 c3NutMut).readNut 0) = Except.ok c3NutMut ∧
    c3Store.readNut 0 = c3Nut ∧
    c3NutMut ≠ c3Nut := by decide

/-- C3 (amended): for valid inputs, scaling allocates fresh cells for the
`dietary_tags`, `ingredients`, `instructions` and `equipment_required`
lists — the new addresses lie beyond every pre-existing cell, are pairwise
distinct, carry copies of the original contents (the ingredient copies
rescaled), and no pre-existing cell is changed — but the `NutritionInfo`
reference is passed through unchanged, so original and scaled recipe share
that one mutable object. -/
theorem c3_scaled_shares_nutrition (st : Store) (r : RecipeRef) (n : Int) (now : Nat)
    (hs : 0 < r.servings)
    (ht : r.dietary_tags < st.strCells.length)
    (hi : r.instructions < st.strCells.length)
    (he : r.equipment_required < st.strCells.length)
    (hg : r.ingredients < st.ingCells.length) :
    ∃ st2 r2, scale_recipe_ref st r n now = Except.ok (st2, r2) ∧
      r2.nutrition = r.nutrition ∧
      st2.nutCells = st.nutCells ∧
      st.strCells.length ≤ r2.dietary_tags ∧
      st.strCells.length ≤ r2.instructions ∧
      st.strCells.length ≤ r2.equipment_required ∧
      st.ingCells.length ≤ r2.ingredients ∧
      r2.dietary_tags ≠ r2.instructions ∧
      r2.dietary_tags ≠ r2.equipment_required ∧
      r2.instructions ≠ r2.equipment_required ∧
      st2.readStr r2.dietary_tags = st.readStr r.dietary_tags ∧
      st2.readStr r2.instructions = st.readStr r.instructions ∧
      st2.readStr r2.equipment_required = st.readStr r.equipment_required ∧
      st2.readIngs r2.ingredients = (st.readIngs r.ingredients).map (fun ing =>
        { name := ing.name, amount := ing.amount * ((n : ℚ) / (r.servings : ℚ)),
          unit := ing.unit, notes := ing.notes }) ∧
      (∀ a, a < st.strCells.length → st2.readStr a = st.readStr a) ∧
      (∀ a, a < st.ingCells.length → st2.readIngs a = st.readIngs a) := by
  have hcond : ¬ r.servings ≤ 0 := by omega
  simp only [scale_recipe_ref, if_neg hcond, Store.allocIngs, Store.allocStr]
  refine ⟨_, _, rfl, rfl, rfl, ?_, ?_, ?_, ?_, ?_, ?_, ?_, ?_, ?_, ?_, ?_, ?_, ?_⟩
  · exact Nat.le_refl _
  · simp
  · simp
  · exact Nat.le_refl _
  · simp
  · simp
  · simp
  · show (((st.strCells ++ _) ++ _) ++ _).getD st.strCells.length [] = _
    rw [listGetD_append_lt, listGetD_append_lt, listGetD_append_len st.strCells [] _ []]
    · simp
    · simp
  · show (((st.strCells ++ _) ++ _) ++ _).getD (st.strCells ++ _).length [] = _
    rw [listGetD_append_lt, listGetD_append_len (st.strCells ++ _) [] _ []]
    simp
  · show (((st.strCells ++ _) ++ _) ++ _).getD ((st.strCells ++ _) ++ _).length [] = _
    rw [listGetD_append_len ((st.strCells ++ _) ++ _) [] _ []]
  · show (st.ingCells ++ _).getD st.ingCells.length [] = _
    rw [listGetD_append_len st.ingCells [] _ []]
  · intro a ha
    have h1 : a < (st.strCells ++ [st.readStr r.dietary_tags]).length := by
      simp
      omega
    have h2 : a < ((st.strCells ++ [st.readStr r.dietary_tags])
        ++ [st.readStr r.instructions]).length := by
      simp
      omega
    show (((st.strCells ++ _) ++ _) ++ _).getD a [] = _
    rw [listGetD_append_lt _ _ _ _ h2, listGetD_append_lt _ _ _ _ h1,
      listGetD_append_lt _ _ _ _ ha]
    rfl
  · intro a ha
    show (st.ingCells ++ _).getD a [] = _
    rw [listGetD_append_lt _ _ _ _ ha]
    rfl

/-- Witness for the amended C3 at the concrete store and recipe of the
counterexample: scaling 4 servings to 8 allocates fresh list cells and
shares the nutrition reference. -/
theorem c3_witness :
    ∃ st2 r2, scale_recipe_ref c3Store c3RecipeRef 8 0 = Except.ok (st2, r2) ∧
      r2.nutrition = c3RecipeRef.nutrition ∧
      st2.nutCells = c3Store.nutCells ∧
      c3Store.strCells.length ≤ r2.dietary_tags ∧
      c3Store.strCells.length ≤ r2.instructions ∧
      c3Store.strCells.length ≤ r2.equipment_required ∧
      c3Store.ingCells.length ≤ r2.ingredients ∧
      r2.dietary_tags ≠ r2.instructions ∧
      r2.dietary_tags ≠ r2.equipment_required ∧
      r2.instructions ≠ r2.equipment_required ∧
      st2.readStr r2.dietary_tags = c3Store.readStr c3RecipeRef.dietary_tags ∧
      st2.readStr r2.instructions = c3Store.readStr c3RecipeRef.instructions ∧
      st2.readStr r2.equipment_required = c3Store.readStr c3RecipeRef.equipment_required ∧
      st2.readIngs r2.ingredients = (c3Store.readIngs c3RecipeRef.ingredients).map (fun ing =>
        { name := ing.name,
          amount := ing.amount * (((8 : Int) : ℚ) / (c3RecipeRef.servings : ℚ)),
          unit := ing.unit, notes := ing.notes }) ∧
      (∀ a, a < c3Store.strCells.length → st2.readStr a = c3Store.readStr a) ∧
      (∀ a, a < c3Store.ingCells.length → st2.readIngs a = c3Store.readIngs a) :=
  c3_scaled_shares_nutrition c3Store c3RecipeRef 8 0 (by decide) (by decide) (by decide)
    (by decide) (by decide)
